import Mathlib

/-!
Shallow embedding of the Smart Personal Carbon Footprint Tracker backend
(`backend/carbon_engine.py`, `backend/gamification.py`,
`backend/recommendation_engine.py`, `backend/demo_api.py`) over exact
rational arithmetic: each Python float value is modelled as a `ℚ`,
Python's `round(x, n)` (banker's rounding, round half to even) as
`pyRound`, `str.lower()` as `py_lower` (ASCII case folding), and `int()`
conversion (truncation toward zero) as `truncToZero`.
-/

namespace CarbonTracker

/-! ### Python numeric and string primitives -/

/-- Python `round()` to an integer: round half to even (banker's rounding). -/
def rndHE (x : ℚ) : ℤ :=
  if x - ⌊x⌋ < 1/2 then ⌊x⌋
  else if 1/2 < x - ⌊x⌋ then ⌊x⌋ + 1
  else if ⌊x⌋ % 2 = 0 then ⌊x⌋ else ⌊x⌋ + 1

/-- Python `round(x, ndigits)`: scale, round half to even, scale back. -/
def pyRound (x : ℚ) (ndigits : ℕ) : ℚ :=
  (rndHE (x * 10 ^ ndigits) : ℚ) / 10 ^ ndigits

/-- Python `int(x)`: truncation toward zero. -/
def truncToZero (x : ℚ) : ℤ :=
  if 0 ≤ x then ⌊x⌋ else -⌊-x⌋

/-- ASCII lowering of one character, as Python `str.lower` acts on ASCII. -/
def py_char_lower (c : Char) : Char :=
  if 65 ≤ c.toNat ∧ c.toNat ≤ 90 then Char.ofNat (c.toNat + 32) else c

/-- Python `s.lower()` restricted to ASCII strings (all keys are ASCII). -/
def py_lower (s : String) : String := String.mk (s.data.map py_char_lower)

/-- Python `s.capitalize()`: first character uppercased, rest lowercased. -/
def py_capitalize (s : String) : String :=
  match s.data with
  | [] => ""
  | c :: rest =>
      String.mk ((if 97 ≤ c.toNat ∧ c.toNat ≤ 122 then Char.ofNat (c.toNat - 32) else c)
        :: rest.map py_char_lower)

/-- Python `dict.get(key, default)` over an association list (dict in
insertion order). -/
def dictGet (d : List (String × ℚ)) (key : String) (dflt : ℚ) : ℚ :=
  match d.find? (fun p => p.1 == key) with
  | some p => p.2
  | none => dflt

/-! ### carbon_engine.py -/

/-- `DEFAULT_EMISSION_FACTORS["transport"]` from `carbon_engine.py`. -/
def DEFAULT_TRANSPORT_FACTORS : List (String × ℚ) :=
  [("car", 0.17), ("bus", 0.08), ("train", 0.03), ("flight", 0.24)]

/-- `DEFAULT_EMISSION_FACTORS["food"]` from `carbon_engine.py`. -/
def DEFAULT_FOOD_FACTORS : List (String × ℚ) :=
  [("beef", 27.0), ("chicken", 6.9), ("dairy", 1.9), ("vegetables", 0.4), ("rice", 2.7)]

/-- `DEFAULT_EMISSION_FACTORS["energy"]` from `carbon_engine.py`. -/
def DEFAULT_ENERGY_FACTORS : List (String × ℚ) :=
  [("electricity", 0.45), ("gas", 0.18)]

/-- `calculate_transport_emissions(mode, distance_km, factors=None)`. -/
def calculate_transport_emissions (mode : String) (distance_km : ℚ)
    (factors : Option (List (String × ℚ))) : ℚ :=
  let fs := factors.getD DEFAULT_TRANSPORT_FACTORS
  distance_km * dictGet fs (py_lower mode) 0

/-- `calculate_food_emissions(food_type, quantity_kg, factors=None)`. -/
def calculate_food_emissions (food_type : String) (quantity_kg : ℚ)
    (factors : Option (List (String × ℚ))) : ℚ :=
  let fs := factors.getD DEFAULT_FOOD_FACTORS
  quantity_kg * dictGet fs (py_lower food_type) 0

/-- `calculate_energy_emissions(energy_type, kwh, factors=None)`. -/
def calculate_energy_emissions (energy_type : String) (kwh : ℚ)
    (factors : Option (List (String × ℚ))) : ℚ :=
  let fs := factors.getD DEFAULT_ENERGY_FACTORS
  kwh * dictGet fs (py_lower energy_type) 0

/-- A `{'mode': str, 'distance': float}` transport entry. -/
structure TransportEntry where
  mode : String
  distance : ℚ

/-- A `{'type': str, 'quantity': float}` food entry. -/
structure FoodEntry where
  type : String
  quantity : ℚ

/-- A `{'type': str, 'kwh': float}` energy entry. -/
structure EnergyEntry where
  type : String
  kwh : ℚ

/-- The optional `custom_factors` dict (each category key may be absent). -/
structure CustomFactors where
  transport : Option (List (String × ℚ))
  food : Option (List (String × ℚ))
  energy : Option (List (String × ℚ))

/-- The `breakdown` dict returned by `calculate_total_footprint`. -/
structure FootprintBreakdown where
  transport : ℚ
  food : ℚ
  energy : ℚ
deriving DecidableEq

/-- The result dict of `calculate_total_footprint`. -/
structure FootprintResult where
  total_kg_co2e : ℚ
  breakdown : FootprintBreakdown
deriving DecidableEq

/-- `calculate_total_footprint(transport_entries, food_entries, energy_entries,
custom_factors=None)` from `carbon_engine.py`. -/
def calculate_total_footprint (transport_entries : List TransportEntry)
    (food_entries : List FoodEntry) (energy_entries : List EnergyEntry)
    (custom_factors : Option CustomFactors) : FootprintResult :=
  let t_factors := match custom_factors with | some c => c.transport | none => none
  let f_factors := match custom_factors with | some c => c.food | none => none
  let e_factors := match custom_factors with | some c => c.energy | none => none
  let transport_total :=
    (transport_entries.map (fun e => calculate_transport_emissions e.mode e.distance t_factors)).sum
  let food_total :=
    (food_entries.map (fun e => calculate_food_emissions e.type e.quantity f_factors)).sum
  let energy_total :=
    (energy_entries.map (fun e => calculate_energy_emissions e.type e.kwh e_factors)).sum
  let total := transport_total + food_total + energy_total
  { total_kg_co2e := pyRound total 4,
    breakdown :=
      { transport := pyRound transport_total 4,
        food := pyRound food_total 4,
        energy := pyRound energy_total 4 } }

/-! ### gamification.py -/

/-- `DAILY_CARBON_GOAL_KG` constant. -/
def DAILY_CARBON_GOAL_KG : ℚ := 20.0

/-- `STREAK_BONUS_MILESTONES` dict, as an association list in insertion order. -/
def STREAK_BONUS_MILESTONES : List (ℤ × ℤ) := [(3, 50), (7, 150)]

/-- `LEVELS` list of `(threshold, name)` pairs. -/
def LEVELS : List (ℤ × String) :=
  [(0, "Seedling"), (500, "Sapling"), (1500, "Oak"), (3000, "Forest Guardian"),
   (5000, "Planet Hero")]

/-- One entry of `BADGE_DEFINITIONS`: the fixed keys plus the optional
threshold keys a badge dict may declare. -/
structure BadgeDef where
  id : String
  name : String
  description : String
  transport_max : Option ℚ
  min_streak : Option ℤ
  energy_max : Option ℚ

/-- `BADGE_DEFINITIONS` from `gamification.py`. -/
def BADGE_DEFINITIONS : List BadgeDef :=
  [⟨"green_traveler", "Green Traveler", "Transport footprint below 5kg.",
      some 5.0, none, none⟩,
   ⟨"eco_warrior", "Eco Warrior", "Maintain a 7-day activity streak.",
      none, some 7, none⟩,
   ⟨"low_utility", "Energy Saver", "Reduce daily energy use below 10kWh.",
      none, none, some 10.0⟩]

/-- `calculate_daily_score(total_carbon_kg)`:
`int(max(0, min(100, 100 - total_carbon_kg * (100 / DAILY_CARBON_GOAL_KG))))`. -/
def calculate_daily_score (total_carbon_kg : ℚ) : ℤ :=
  truncToZero (max 0 (min 100 (100 - total_carbon_kg * (100 / DAILY_CARBON_GOAL_KG))))

/-- `calculate_weekly_streak(active_days_count)`: `(status, bonus)`. -/
def calculate_weekly_streak (active_days_count : ℤ) : String × ℤ :=
  let bonus :=
    match STREAK_BONUS_MILESTONES.find? (fun p => p.1 == active_days_count) with
    | some p => p.2
    | none => 0
  let status :=
    if active_days_count ≥ 7 then
      "🔥 Master Streak: " ++ toString active_days_count ++ " days!"
    else if active_days_count ≥ 3 then
      "✨ On Fire: " ++ toString active_days_count ++ " days!"
    else
      "Keep it up: " ++ toString active_days_count ++ " days"
  (status, bonus)

/-- One earned badge as returned by `get_badges` (id, name, description). -/
structure Badge where
  id : String
  name : String
  description : String
deriving DecidableEq

/-- The `is_earned` flag of the `get_badges` loop body for one badge:
set to `False` when a declared threshold key is violated. -/
def badge_is_earned (badge : BadgeDef) (streak_days : ℤ) (transport_kg : ℚ)
    (energy_kwh : ℚ) : Bool :=
  let e1 := match badge.transport_max with
    | some m => !(transport_kg > m)
    | none => true
  let e2 := match badge.min_streak with
    | some m => !(streak_days < m)
    | none => true
  let e3 := match badge.energy_max with
    | some m => !(energy_kwh > m)
    | none => true
  e1 && e2 && e3

/-- `get_badges(total_carbon_kg, streak_days, transport_kg=0.0, energy_kwh=0.0)`:
append each earned badge of `BADGE_DEFINITIONS` in catalog order.
(`total_carbon_kg` is accepted but read by no catalog entry.) -/
def get_badges (total_carbon_kg : ℚ) (streak_days : ℤ) (transport_kg : ℚ)
    (energy_kwh : ℚ) : List Badge :=
  (BADGE_DEFINITIONS.filter
      (fun b => badge_is_earned b streak_days transport_kg energy_kwh)).map
    (fun b => ⟨b.id, b.name, b.description⟩)

/-- The result dict of `get_progress_level`. -/
structure ProgressLevel where
  level_name : String
  level_number : ℕ
  total_points : ℤ
deriving DecidableEq

/-- The `for i, (threshold, name) in enumerate(LEVELS)` loop of
`get_progress_level`, with its early `break` on the first threshold
exceeding the points; `i` is the enumerate index, `(curName, curNum)` the
accumulated `current_level_name` and `level_num`. -/
def level_scan (points : ℤ) : List (ℤ × String) → ℕ → String → ℕ → String × ℕ
  | [], _, curName, curNum => (curName, curNum)
  | (threshold, name) :: rest, i, curName, curNum =>
      if points ≥ threshold then level_scan points rest (i + 1) name (i + 1)
      else (curName, curNum)

/-- `get_progress_level(total_points)` from `gamification.py`. -/
def get_progress_level (total_points : ℤ) : ProgressLevel :=
  let start := (LEVELS.headD (0, "")).2
  let p := level_scan total_points LEVELS 0 start 1
  { level_name := p.1, level_number := p.2, total_points := total_points }

/-! ### recommendation_engine.py -/

/-- The `carbon_breakdown` dict handed to `build_recommendation_prompt`,
in its insertion order `transport, food, energy, total`. -/
structure PromptBreakdown where
  transport : ℚ
  food : ℚ
  energy : ℚ
  total : ℚ
deriving DecidableEq

/-- Python `format(x, '.2f')`: two fractional digits, rounding half to even. -/
def fixed2 (q : ℚ) : String :=
  let n := rndHE (q * 100)
  let sign := if n < 0 then "-" else ""
  let a := n.natAbs
  sign ++ toString (a / 100) ++ "." ++ (if a % 100 < 10 then "0" else "") ++
    toString (a % 100)

/-- `max(categories, key=categories.get)` over
`{k: v for k, v in carbon_breakdown.items() if k != 'total'}`: the first key
of maximal value in iteration order `transport, food, energy` (Python `max`
keeps the earliest maximal element), paired with its value. -/
def highest_category (b : PromptBreakdown) : String × ℚ :=
  let best := ("transport", b.transport)
  let best := if b.food > best.2 then ("food", b.food) else best
  let best := if b.energy > best.2 then ("energy", b.energy) else best
  best

/-- The `### Analysis:` sentence of the prompt naming the highest
contributor (capitalized) and its value. -/
def analysis_line (b : PromptBreakdown) : String :=
  "- The highest contributor to the user's footprint is **" ++
    py_capitalize (highest_category b).1 ++ "** (" ++
    fixed2 (highest_category b).2 ++ " kg CO2e)."

/-- `build_recommendation_prompt(carbon_breakdown, activity_summary)`:
the full prompt text after the trailing `.strip()`. -/
def build_recommendation_prompt (carbon_breakdown : PromptBreakdown)
    (activity_summary : String) : String :=
  "Act as a Sustainability Expert and Carbon Footprint Consultant.\n" ++
  "Your goal is to analyze a user's carbon footprint data and provide actionable, realistic, and prioritized recommendations to reduce their environmental impact.\n" ++
  "\n" ++
  "### User Carbon Footprint Data (kg CO2e):\n" ++
  "- **Total Footprint**: " ++ fixed2 carbon_breakdown.total ++ "\n" ++
  "- **Transport**: " ++ fixed2 carbon_breakdown.transport ++ "\n" ++
  "- **Food**: " ++ fixed2 carbon_breakdown.food ++ "\n" ++
  "- **Energy**: " ++ fixed2 carbon_breakdown.energy ++ "\n" ++
  "\n" ++
  "### User's Recent Activity Summary:\n" ++
  "\"" ++ activity_summary ++ "\"\n" ++
  "\n" ++
  "### Analysis:\n" ++
  analysis_line carbon_breakdown ++ "\n" ++
  "\n" ++
  "### Task:\n" ++
  "Please provide 5–7 specific and realistic recommendations to reduce this carbon footprint. \n" ++
  "For each recommendation, include:\n" ++
  "1. **Action**: A clear, actionable step.\n" ++
  "2. **Priority**: High, Medium, or Low (based on potential impact and ease of implementation).\n" ++
  "3. **Rationale**: A brief explanation of why this helps.\n" ++
  "\n" ++
  "### Output Style:\n" ++
  "- Use a professional yet encouraging tone.\n" ++
  "- Use clear bullet points.\n" ++
  "- Ensure recommendations are tailored to the provided data and habits.\n" ++
  "- Do not use generic advice; keep it specific to the identified problem areas.\n" ++
  "\n" ++
  "Recommendations:"

/-! ### demo_api.py -/

/-- The `DemoRunRequest` pydantic model. -/
structure DemoRunRequest where
  transport_mode : String
  distance : ℚ
  food_type : String
  food_quantity : ℚ
  energy_kwh : ℚ

/-- The three per-category emissions computed at the top of
`run_integrated_demo` (step 1, before any rounding). -/
def demo_emissions (req : DemoRunRequest) : ℚ × ℚ × ℚ :=
  (calculate_transport_emissions req.transport_mode req.distance none,
   calculate_food_emissions req.food_type req.food_quantity none,
   calculate_energy_emissions "electricity" req.energy_kwh none)

/-- The `breakdown` dict built in `run_integrated_demo` and handed to
`build_recommendation_prompt`: each category, and the total of the
unrounded emissions, rounded to 2 decimals. -/
def demo_breakdown (req : DemoRunRequest) : PromptBreakdown :=
  let e := demo_emissions req
  { transport := pyRound e.1 2,
    food := pyRound e.2.1 2,
    energy := pyRound e.2.2 2,
    total := pyRound (e.1 + e.2.1 + e.2.2) 2 }

/-- The composite response object of `POST /api/demo-run`. -/
structure DemoRunResponse where
  transport_emission : ℚ
  food_emission : ℚ
  energy_emission : ℚ
  total_emission : ℚ
  daily_score : ℤ
  badges : List Badge
  recommendation_prompt : String

/-- The `habit_summary` f-string of `run_integrated_demo`, with the raw
numeric request fields rendered by `toString` (Python's float repr is
abstracted; no claim depends on this text). -/
def habit_summary (req : DemoRunRequest) : String :=
  "I traveled " ++ toString req.distance ++ "km by " ++ req.transport_mode ++
    ", consumed " ++ toString req.food_quantity ++ "kg of " ++ req.food_type ++
    ", and used " ++ toString req.energy_kwh ++ "kWh of electricity."

/-- `run_integrated_demo(req)` from `demo_api.py` (the non-exceptional path). -/
def run_integrated_demo (req : DemoRunRequest) : DemoRunResponse :=
  let e := demo_emissions req
  let transport_emission := e.1
  let food_emission := e.2.1
  let energy_emission := e.2.2
  let total_emission := transport_emission + food_emission + energy_emission
  { transport_emission := pyRound transport_emission 4,
    food_emission := pyRound food_emission 4,
    energy_emission := pyRound energy_emission 4,
    total_emission := pyRound total_emission 4,
    daily_score := calculate_daily_score total_emission,
    badges := get_badges total_emission 1 transport_emission req.energy_kwh,
    recommendation_prompt :=
      build_recommendation_prompt (demo_breakdown req) (habit_summary req) }

/-! ### Specification-side definitions (worded from the spec, for
refinement comparisons) -/

/-- Worded from the spec: a badge qualifies only if every threshold field
it declares is satisfied (`transport_max`: transportKg must be ≤ it;
`min_streak`: streakDays must be ≥ it; `energy_max`: energyKwh must be
≤ it); badges with no declared fields always qualify. -/
def spec_badge_qualifies (badge : BadgeDef) (streak_days : ℤ) (transport_kg : ℚ)
    (energy_kwh : ℚ) : Bool :=
  (badge.transport_max.all fun m => decide (transport_kg ≤ m)) &&
  (badge.min_streak.all fun m => decide (streak_days ≥ m)) &&
  (badge.energy_max.all fun m => decide (energy_kwh ≤ m))

/-- Worded from the spec: among the entries of an ascending table whose
threshold does not exceed the points, the last (hence highest-threshold)
one, paired with its 1-based position; `i` is the 0-based position of the
list head. -/
def spec_highest (points : ℤ) : List (ℤ × String) → ℕ → Option (String × ℕ)
  | [], _ => none
  | (threshold, name) :: rest, i =>
      match spec_highest points rest (i + 1) with
      | some r => some r
      | none => if threshold ≤ points then some (name, i + 1) else none

/-- Worded from the spec: scan the ascending `(threshold, name)` table; the
level is the name of the highest threshold not exceeding the point total,
its 1-based position the level number; below the first threshold, default
to the first entry's name and number 1. -/
def spec_progress_level (total_points : ℤ) : String × ℕ :=
  match spec_highest total_points LEVELS 0 with
  | some r => r
  | none => ((LEVELS.headD (0, "")).2, 1)

/-! ### Shared rounding lemmas -/

/-- Rounding half to even moves a value by at most one half. -/
theorem abs_rndHE_sub_le (x : ℚ) : |(rndHE x : ℚ) - x| ≤ 1 / 2 := by
  have hle : (⌊x⌋ : ℚ) ≤ x := Int.floor_le x
  have hlt : x < ⌊x⌋ + 1 := Int.lt_floor_add_one x
  unfold rndHE
  split_ifs with h1 h2 h3 <;> rw [abs_le] <;> constructor <;> push_cast <;> linarith

/-- `pyRound` to `n` digits moves a value by at most half an ulp. -/
theorem abs_pyRound_sub_le (x : ℚ) (n : ℕ) :
    |pyRound x n - x| ≤ 1 / (2 * 10 ^ n) := by
  have hpos : (0 : ℚ) < 10 ^ n := by positivity
  have h := abs_rndHE_sub_le (x * 10 ^ n)
  have hx : pyRound x n - x = ((rndHE (x * 10 ^ n) : ℚ) - x * 10 ^ n) / 10 ^ n := by
    unfold pyRound
    field_simp
    ring
  rw [hx, abs_div, abs_of_pos hpos, div_le_div_iff₀ hpos (by positivity)]
  calc |(rndHE (x * 10 ^ n) : ℚ) - x * 10 ^ n| * (2 * 10 ^ n)
      ≤ (1 / 2) * (2 * 10 ^ n) := by
        apply mul_le_mul_of_nonneg_right h (by positivity)
    _ = 1 * 10 ^ n := by ring

/-! ### Claim theorems -/

/-- C1: for every activity type present in the default factor table
(matched case-insensitively) and every non-negative quantity, the three
emission calculators with no custom factor table return exactly the
quantity times the documented factor (transport: car 0.17, bus 0.08,
train 0.03, flight 0.24; food: beef 27.0, chicken 6.9, dairy 1.9,
vegetables 0.4, rice 2.7; energy: electricity 0.45, gas 0.18). -/
theorem emissions_match_documented_factors (m : String) (q : ℚ) (hq : 0 ≤ q) :
    (py_lower m = "car" → calculate_transport_emissions m q none = q * 0.17) ∧
    (py_lower m = "bus" → calculate_transport_emissions m q none = q * 0.08) ∧
    (py_lower m = "train" → calculate_transport_emissions m q none = q * 0.03) ∧
    (py_lower m = "flight" → calculate_transport_emissions m q none = q * 0.24) ∧
    (py_lower m = "beef" → calculate_food_emissions m q none = q * 27.0) ∧
    (py_lower m = "chicken" → calculate_food_emissions m q none = q * 6.9) ∧
    (py_lower m = "dairy" → calculate_food_emissions m q none = q * 1.9) ∧
    (py_lower m = "vegetables" → calculate_food_emissions m q none = q * 0.4) ∧
    (py_lower m = "rice" → calculate_food_emissions m q none = q * 2.7) ∧
    (py_lower m = "electricity" → calculate_energy_emissions m q none = q * 0.45) ∧
    (py_lower m = "gas" → calculate_energy_emissions m q none = q * 0.18) := by
  refine ⟨?_, ?_, ?_, ?_, ?_, ?_, ?_, ?_, ?_, ?_, ?_⟩ <;> intro h <;>
    simp [calculate_transport_emissions, calculate_food_emissions,
      calculate_energy_emissions, dictGet, DEFAULT_TRANSPORT_FACTORS,
      DEFAULT_FOOD_FACTORS, DEFAULT_ENERGY_FACTORS, List.find?, h]

/-- Witness for C1 at mode `"CAR"` (case-insensitive match) and quantity 5. -/
theorem emissions_match_documented_factors_witness :
    (0 : ℚ) ≤ 5 ∧ calculate_transport_emissions "CAR" 5 none = 5 * 0.17 :=
  ⟨by decide, (emissions_match_documented_factors "CAR" 5 (by decide)).1 (by decide)⟩

/-- C2: for every activity type string whose lowercased form is not a key
of the applicable default factor table, the calculators return 0
regardless of the quantity (also for a negative quantity), and no error is
raised: the functions are total. -/
theorem unknown_activity_type_yields_zero (m : String) (q : ℚ) :
    (DEFAULT_TRANSPORT_FACTORS.find? (fun p => p.1 == py_lower m) = none →
      calculate_transport_emissions m q none = 0) ∧
    (DEFAULT_FOOD_FACTORS.find? (fun p => p.1 == py_lower m) = none →
      calculate_food_emissions m q none = 0) ∧
    (DEFAULT_ENERGY_FACTORS.find? (fun p => p.1 == py_lower m) = none →
      calculate_energy_emissions m q none = 0) := by
  refine ⟨?_, ?_, ?_⟩ <;> intro h <;>
    simp [calculate_transport_emissions, calculate_food_emissions,
      calculate_energy_emissions, dictGet, h]

/-- Witness for C2 at the unknown mode `"bike"` with negative quantity. -/
theorem unknown_activity_type_yields_zero_witness :
    DEFAULT_TRANSPORT_FACTORS.find? (fun p => p.1 == py_lower "bike") = none ∧
    calculate_transport_emissions "bike" (-5) none = 0 :=
  ⟨by decide, (unknown_activity_type_yields_zero "bike" (-5)).1 (by decide)⟩

/-- C3: `calculate_daily_score` computes `100 - total * (100/20)`, clamps
to `[0, 100]`, then truncates toward zero; hence the output is an integer
in `[0, 100]`, and the scores of 0, 10, 20 and 30 kg are 100, 50, 0, 0. -/
theorem daily_score_clamped_truncated (t : ℚ) :
    calculate_daily_score t =
      truncToZero (max 0 (min 100 (100 - t * (100 / 20.0)))) ∧
    0 ≤ calculate_daily_score t ∧ calculate_daily_score t ≤ 100 ∧
    calculate_daily_score 0 = 100 ∧ calculate_daily_score 10 = 50 ∧
    calculate_daily_score 20 = 0 ∧ calculate_daily_score 30 = 0 := by
  have h0 : (0 : ℚ) ≤ max 0 (min 100 (100 - t * (100 / DAILY_CARBON_GOAL_KG))) :=
    le_max_left _ _
  have h100 : max 0 (min 100 (100 - t * (100 / DAILY_CARBON_GOAL_KG))) ≤ 100 :=
    max_le (by norm_num) (min_le_left _ _)
  have hval : calculate_daily_score t =
      ⌊max 0 (min 100 (100 - t * (100 / DAILY_CARBON_GOAL_KG)))⌋ := by
    simp [calculate_daily_score, truncToZero, h0]
  refine ⟨rfl, ?_, ?_, ?_, ?_, ?_, ?_⟩
  · rw [hval]
    exact Int.floor_nonneg.mpr h0
  · rw [hval]
    calc ⌊max 0 (min 100 (100 - t * (100 / DAILY_CARBON_GOAL_KG)))⌋
        ≤ ⌊(100 : ℚ)⌋ := Int.floor_le_floor h100
      _ = 100 := by norm_num
  all_goals norm_num [calculate_daily_score, truncToZero, DAILY_CARBON_GOAL_KG]

/-- C4: `calculate_weekly_streak` awards bonus points by exact-match
lookup only (3 days yields 50, 7 yields 150, every other count 0, also 10),
and buckets the status message at `>= 7` (master streak), `[3, 7)` (on
fire), otherwise keep-it-up, each including the day count. -/
theorem weekly_streak_exact_match_bonus (n : ℤ) :
    (calculate_weekly_streak 3).2 = 50 ∧
    (calculate_weekly_streak 7).2 = 150 ∧
    (calculate_weekly_streak 10).2 = 0 ∧
    (n ≠ 3 → n ≠ 7 → (calculate_weekly_streak n).2 = 0) ∧
    (7 ≤ n → (calculate_weekly_streak n).1 =
      "🔥 Master Streak: " ++ toString n ++ " days!") ∧
    (3 ≤ n → n < 7 → (calculate_weekly_streak n).1 =
      "✨ On Fire: " ++ toString n ++ " days!") ∧
    (n < 3 → (calculate_weekly_streak n).1 =
      "Keep it up: " ++ toString n ++ " days") := by
  refine ⟨by decide, by decide, by decide, ?_, ?_, ?_, ?_⟩
  · intro h3 h7
    have h3' : ((3 : ℤ) == n) = false := beq_eq_false_iff_ne.mpr fun h => h3 h.symm
    have h7' : ((7 : ℤ) == n) = false := beq_eq_false_iff_ne.mpr fun h => h7 h.symm
    simp [calculate_weekly_streak, STREAK_BONUS_MILESTONES, List.find?, h3', h7']
  · intro h
    have h' : n ≥ 7 := h
    simp [calculate_weekly_streak, h']
  · intro h3 h7
    have h7' : ¬ (n ≥ 7) := by omega
    have h3' : n ≥ 3 := h3
    simp [calculate_weekly_streak, h7', h3']
  · intro h
    have h7' : ¬ (n ≥ 7) := by omega
    have h3' : ¬ (n ≥ 3) := by omega
    simp [calculate_weekly_streak, h7', h3']

/-- Witness for C4 at the 10-day streak: zero bonus yet master wording. -/
theorem weekly_streak_exact_match_bonus_witness :
    (calculate_weekly_streak 10).2 = 0 ∧
    (calculate_weekly_streak 10).1 = "🔥 Master Streak: " ++ toString (10 : ℤ) ++ " days!" :=
  ⟨(weekly_streak_exact_match_bonus 10).2.2.2.1 (by decide) (by decide),
   (weekly_streak_exact_match_bonus 10).2.2.2.2.1 (by decide)⟩

/-- The loop body's earned flag agrees with the spec's qualification
predicate for every badge. -/
theorem badge_is_earned_eq_spec (b : BadgeDef) (s : ℤ) (tr en : ℚ) :
    badge_is_earned b s tr en = spec_badge_qualifies b s tr en := by
  rcases b with ⟨i, nm, d, tm, ms, em⟩
  rw [Bool.eq_iff_iff]
  cases tm <;> cases ms <;> cases em <;>
    simp [badge_is_earned, spec_badge_qualifies, Option.all, not_lt, ge_iff_le]

/-- C5: `get_badges` returns exactly the catalog badges whose every
declared threshold is satisfied, in catalog declaration order; the result
never depends on `total_carbon_kg`; and at `(10, 7, 2, 5)` all three
catalog badges are earned. -/
theorem get_badges_threshold_filter (t t' : ℚ) (s : ℤ) (tr en : ℚ) :
    get_badges t s tr en = get_badges t' s tr en ∧
    get_badges t s tr en =
      (BADGE_DEFINITIONS.filter (fun b => spec_badge_qualifies b s tr en)).map
        (fun b => ⟨b.id, b.name, b.description⟩) ∧
    get_badges 10 7 2 5 =
      [⟨"green_traveler", "Green Traveler", "Transport footprint below 5kg."⟩,
       ⟨"eco_warrior", "Eco Warrior", "Maintain a 7-day activity streak."⟩,
       ⟨"low_utility", "Energy Saver", "Reduce daily energy use below 10kWh."⟩] := by
  refine ⟨rfl, ?_, ?_⟩
  · unfold get_badges
    rw [List.filter_congr fun b _ => badge_is_earned_eq_spec b s tr en]
  · norm_num [get_badges, BADGE_DEFINITIONS, badge_is_earned, List.filter]

/-- C6: `get_progress_level` returns the name of the highest threshold in
the ascending level table not exceeding the points, with its 1-based
position as the level number (defaulting to the first entry below the
first threshold), and maps 2000 points to Oak, level 3. -/
theorem progress_level_highest_threshold (p : ℤ) :
    (get_progress_level p).level_name = (spec_progress_level p).1 ∧
    (get_progress_level p).level_number = (spec_progress_level p).2 ∧
    (get_progress_level p).total_points = p ∧
    get_progress_level 2000 = ⟨"Oak", 3, 2000⟩ := by
  have hmain : (get_progress_level p).level_name = (spec_progress_level p).1 ∧
      (get_progress_level p).level_number = (spec_progress_level p).2 := by
    by_cases h5 : 5000 ≤ p
    · have h0 : (0 : ℤ) ≤ p := by omega
      have h1 : (500 : ℤ) ≤ p := by omega
      have h2 : (1500 : ℤ) ≤ p := by omega
      have h3 : (3000 : ℤ) ≤ p := by omega
      simp [get_progress_level, spec_progress_level, spec_highest, level_scan,
        LEVELS, ge_iff_le, h0, h1, h2, h3, h5]
    · by_cases h3 : 3000 ≤ p
      · have h0 : (0 : ℤ) ≤ p := by omega
        have h1 : (500 : ℤ) ≤ p := by omega
        have h2 : (1500 : ℤ) ≤ p := by omega
        simp [get_progress_level, spec_progress_level, spec_highest, level_scan,
          LEVELS, ge_iff_le, h0, h1, h2, h3, h5]
      · by_cases h2 : 1500 ≤ p
        · have h0 : (0 : ℤ) ≤ p := by omega
          have h1 : (500 : ℤ) ≤ p := by omega
          simp [get_progress_level, spec_progress_level, spec_highest, level_scan,
            LEVELS, ge_iff_le, h0, h1, h2, h3, h5]
        · by_cases h1 : 500 ≤ p
          · have h0 : (0 : ℤ) ≤ p := by omega
            simp [get_progress_level, spec_progress_level, spec_highest, level_scan,
              LEVELS, ge_iff_le, h0, h1, h2, h3, h5]
          · by_cases h0 : 0 ≤ p
            · simp [get_progress_level, spec_progress_level, spec_highest, level_scan,
                LEVELS, ge_iff_le, h0, h1, h2, h3, h5]
            · simp [get_progress_level, spec_progress_level, spec_highest, level_scan,
                LEVELS, ge_iff_le, h0, h1, h2, h3, h5]
  exact ⟨hmain.1, hmain.2, rfl, by decide⟩

/-- Triangle-style bound for a sum of four terms. -/
theorem abs_add_four (a b c d : ℚ) : |a + b + c + d| ≤ |a| + |b| + |c| + |d| := by
  calc |a + b + c + d| ≤ |a + b + c| + |d| := abs_add _ _
    _ ≤ |a + b| + |c| + |d| := by linarith [abs_add (a + b) c]
    _ ≤ |a| + |b| + |c| + |d| := by linarith [abs_add a b]

/-- Rounding a sum of three terms to 4 decimals lands within `2 / 10 ^ 4`
of the sum of the three individually rounded terms. -/
theorem pyRound_sum_close (t f e : ℚ) :
    |pyRound (t + f + e) 4 - (pyRound t 4 + pyRound f 4 + pyRound e 4)| ≤ 2 / 10 ^ 4 := by
  have h1 := abs_pyRound_sub_le (t + f + e) 4
  have h2 := abs_pyRound_sub_le t 4
  have h3 := abs_pyRound_sub_le f 4
  have h4 := abs_pyRound_sub_le e 4
  have key : pyRound (t + f + e) 4 - (pyRound t 4 + pyRound f 4 + pyRound e 4) =
      (pyRound (t + f + e) 4 - (t + f + e)) + (t - pyRound t 4) +
        (f - pyRound f 4) + (e - pyRound e 4) := by ring
  have tri := abs_add_four (pyRound (t + f + e) 4 - (t + f + e)) (t - pyRound t 4)
    (f - pyRound f 4) (e - pyRound e 4)
  rw [abs_sub_comm t, abs_sub_comm f, abs_sub_comm e] at tri
  rw [key]
  calc |(pyRound (t + f + e) 4 - (t + f + e)) + (t - pyRound t 4) +
        (f - pyRound f 4) + (e - pyRound e 4)|
      ≤ |pyRound (t + f + e) 4 - (t + f + e)| + |pyRound t 4 - t| +
        |pyRound f 4 - f| + |pyRound e 4 - e| := tri
    _ ≤ 1 / (2 * 10 ^ 4) + 1 / (2 * 10 ^ 4) + 1 / (2 * 10 ^ 4) + 1 / (2 * 10 ^ 4) := by
        linarith
    _ = 2 / 10 ^ 4 := by norm_num

/-- C7: `calculate_total_footprint` rounds only at output: its total is
the 4-decimal rounding of the sum of the unrounded per-category sums, and
it differs from the sum of the three rounded breakdown components by at
most `2 / 10 ^ 4`. -/
theorem total_footprint_unrounded_sum (transport_entries : List TransportEntry)
    (food_entries : List FoodEntry) (energy_entries : List EnergyEntry)
    (custom_factors : Option CustomFactors) :
    (calculate_total_footprint transport_entries food_entries energy_entries
        custom_factors).total_kg_co2e =
      pyRound
        ((transport_entries.map (fun e => calculate_transport_emissions e.mode e.distance
            (match custom_factors with | some c => c.transport | none => none))).sum +
         (food_entries.map (fun e => calculate_food_emissions e.type e.quantity
            (match custom_factors with | some c => c.food | none => none))).sum +
         (energy_entries.map (fun e => calculate_energy_emissions e.type e.kwh
            (match custom_factors with | some c => c.energy | none => none))).sum) 4 ∧
    |(calculate_total_footprint transport_entries food_entries energy_entries
        custom_factors).total_kg_co2e -
      ((calculate_total_footprint transport_entries food_entries energy_entries
          custom_factors).breakdown.transport +
       (calculate_total_footprint transport_entries food_entries energy_entries
          custom_factors).breakdown.food +
       (calculate_total_footprint transport_entries food_entries energy_entries
          custom_factors).breakdown.energy)| ≤ 2 / 10 ^ 4 := by
  exact ⟨rfl, pyRound_sum_close _ _ _⟩

/-- C8: `build_recommendation_prompt` names as highest-emission category
the numerically largest value among transport, food and energy (total
excluded), ties resolving to the earlier key in iteration order
transport, food, energy; on the breakdown `(45.5, 12.2, 30.0, 87.7)` it
identifies Transport, as the prompt's analysis sentence shows. -/
theorem highest_category_tiebreak (b : PromptBreakdown) :
    ((highest_category b).1 = "transport" ↔
      b.food ≤ b.transport ∧ b.energy ≤ b.transport) ∧
    ((highest_category b).1 = "food" ↔
      b.transport < b.food ∧ b.energy ≤ b.food) ∧
    ((highest_category b).1 = "energy" ↔ max b.transport b.food < b.energy) ∧
    (highest_category b).2 = max b.transport (max b.food b.energy) ∧
    highest_category ⟨45.5, 12.2, 30.0, 87.7⟩ = ("transport", 45.5) ∧
    analysis_line ⟨45.5, 12.2, 30.0, 87.7⟩ =
      "- The highest contributor to the user's footprint is **Transport** (45.50 kg CO2e)." := by
  refine ⟨?_, ?_, ?_, ?_, ?_, ?_⟩
  · simp only [highest_category]
    split_ifs with h1 h2 h2 <;> simp_all
  · simp only [highest_category]
    split_ifs with h1 h2 h2 <;> simp_all
  · simp only [highest_category]
    split_ifs with h1 h2 h2 <;> simp_all [max_lt_iff] <;> linarith
  · simp only [highest_category]
    split_ifs with h1 h2 h2 <;> simp_all [max_def] <;>
      first
        | linarith
        | (split_ifs <;> linarith)
  · norm_num [highest_category]
  · norm_num [analysis_line, highest_category, fixed2, rndHE, py_capitalize]
    decide

/-- C9 counterexample: at the demo request `(car, 0.02 km, vegetables,
0.01 kg, 0.008 kWh)` the prompt breakdown's total is `0.01`, while the sum
of the three category emissions each rounded to 2 decimals is `0`: the
code rounds the unrounded sum, it does not sum the rounded categories. -/
theorem demo_prompt_total_counterexample :
    (demo_breakdown ⟨"car", 1/50, "vegetables", 1/100, 1/125⟩).total = 1/100 ∧
    pyRound (demo_emissions ⟨"car", 1/50, "vegetables", 1/100, 1/125⟩).1 2 +
      pyRound (demo_emissions ⟨"car", 1/50, "vegetables", 1/100, 1/125⟩).2.1 2 +
      pyRound (demo_emissions ⟨"car", 1/50, "vegetables", 1/100, 1/125⟩).2.2 2 = 0 := by
  have e1 : py_lower "car" = "car" := by decide
  have e2 : py_lower "vegetables" = "vegetables" := by decide
  have e3 : py_lower "electricity" = "electricity" := by decide
  have ht : (demo_emissions ⟨"car", 1/50, "vegetables", 1/100, 1/125⟩).1 = 17/5000 := by
    simp [demo_emissions, calculate_transport_emissions, dictGet,
      DEFAULT_TRANSPORT_FACTORS, List.find?, e1]
    norm_num
  have hf : (demo_emissions ⟨"car", 1/50, "vegetables", 1/100, 1/125⟩).2.1 = 1/250 := by
    simp [demo_emissions, calculate_food_emissions, dictGet,
      DEFAULT_FOOD_FACTORS, List.find?, e2]
    norm_num
  have he : (demo_emissions ⟨"car", 1/50, "vegetables", 1/100, 1/125⟩).2.2 = 9/2500 := by
    simp [demo_emissions, calculate_energy_emissions, dictGet,
      DEFAULT_ENERGY_FACTORS, List.find?, e3]
    norm_num
  constructor
  · rw [demo_breakdown, ht, hf, he]
    norm_num [pyRound, rndHE]
  · rw [ht, hf, he]
    norm_num [pyRound, rndHE]

/-- C9 (amended): for every demo-run request the prompt is built from the
breakdown whose per-category fields are the 2-decimal roundings of the
unrounded emissions, and whose total is the 2-decimal rounding of the sum
of the three unrounded category emissions (not the sum of the rounded
ones). -/
theorem demo_prompt_total_rounds_unrounded_sum (req : DemoRunRequest) :
    (run_integrated_demo req).recommendation_prompt =
      build_recommendation_prompt (demo_breakdown req) (habit_summary req) ∧
    (demo_breakdown req).total =
      pyRound ((demo_emissions req).1 + (demo_emissions req).2.1 +
        (demo_emissions req).2.2) 2 ∧
    (demo_breakdown req).transport = pyRound (demo_emissions req).1 2 ∧
    (demo_breakdown req).food = pyRound (demo_emissions req).2.1 2 ∧
    (demo_breakdown req).energy = pyRound (demo_emissions req).2.2 2 :=
  ⟨rfl, rfl, rfl, rfl, rfl⟩

/-- C10: for every demo-run request the badge list of the composite
response never contains the Eco Warrior badge: the flow passes a fixed
1-day streak, below Eco Warrior's declared 7-day minimum. -/
theorem demo_badges_never_eco_warrior (req : DemoRunRequest) :
    ((run_integrated_demo req).badges.map Badge.id).contains "eco_warrior" = false := by
  simp only [run_integrated_demo, get_badges, BADGE_DEFINITIONS, List.filter,
    badge_is_earned]
  norm_num
  cases h1 : !decide ((5:ℚ) < (demo_emissions req).1) <;>
    cases h2 : !decide ((10:ℚ) < req.energy_kwh) <;> simp

end CarbonTracker
